import Mathlib

/-!
Verification of the SaoKe PDF-to-CSV extraction pipeline (`src/app.py`).

The pipeline converts a multi-page tabular bank statement into CSV rows.
We shallowly embed the pure row-processing core:

* a table cell is `Option String` (`none` models a pandas `NaN` cell);
* a `Row` is the fixed 5-column contract `Date, Debit, Credit, Balance,
  Transaction Detail` (positional indices 0..4 in the Python lists);
* `clean_dataframe`, `extract_entries`, `process_entries`, `write_csv`
  and the batch partition of `process_pdf_to_csv` are translated
  function by function;
* Python exceptions that the code does not catch are modelled with
  `Except String`: an `Except.error` value is an exception propagating
  out of the translated function;
* the output file is modelled as `Option (List String)`: `none` when the
  file does not exist, `some lines` when it exists with those lines.
-/

/-- A raw or cleaned table row: the fixed 5-column contract.
Each cell is optional text; `none` models a pandas `NaN` (absent) cell.
Field order mirrors the positional indices used by `app.py`:
`row[0] = date, row[1] = debit, row[2] = credit, row[3] = balance,
row[4] = detail`. -/
structure Row where
  date : Option String
  debit : Option String
  credit : Option String
  balance : Option String
  detail : Option String
  deriving Repr, DecidableEq

/-- A normalized transaction record, as assembled by `process_entries`. -/
structure Record where
  date : Option String
  transactionId : Option String
  amount : Option String
  content : String
  deriving Repr, DecidableEq

/-- Function `digit_only` (app.py line 8): keep only the digit characters of a
string. -/
def digit_only (str_digit : String) : String :=
  String.mk (str_digit.toList.filter Char.isDigit)

/-- Python's `str.strip()`: remove leading and trailing whitespace. -/
def pyStrip (s : String) : String :=
  String.mk (((s.toList.dropWhile Char.isWhitespace).reverse.dropWhile
    Char.isWhitespace).reverse)

/-- The error message of the uncaught pandas `KeyError` raised by
`df.drop(0)` on an empty frame (app.py line 31). -/
def keyErrorMsg : String := "KeyError: [0] not found in axis"

/-- The error message of the uncaught `TypeError` raised by
`digit_only(nan)` (app.py line 70): iterating over a float. -/
def typeErrorMsg : String := "TypeError: argument of type float is not iterable"

/-- Function `clean_dataframe` (app.py lines 24-32): drop the first 3 rows, assign
the fixed column names, then drop one more leading row.  When the table
has at most 3 rows, `df_cleaned` is empty and `drop(0)` raises a
`KeyError`, which `clean_dataframe` does not catch. -/
def clean_dataframe (df : List Row) : Except String (List Row) :=
  match df.drop 3 with
  | [] => Except.error keyErrorMsg
  | _ :: rest => Except.ok rest

/-- The date-boundary test of `extract_entries` (app.py line 43):
`pd.notna(row['Date']) and '/' in str(row['Date'])` (the separator is a
single character, so substring containment is character membership). -/
def isDateRow (r : Row) : Bool :=
  match r.date with
  | some s => s.toList.contains '/'
  | none => false

/-- The loop of `extract_entries` (app.py lines 42-52): `cur` is
`current_entry`, `acc` is `entries`; after the loop a non-empty
`current_entry` is flushed. -/
def extract_entries_loop : List Row → List Row → List (List Row) → List (List Row)
  | [], cur, acc => if cur = [] then acc else acc ++ [cur]
  | r :: rest, cur, acc =>
    if isDateRow r then
      extract_entries_loop rest [r] (if cur = [] then acc else acc ++ [cur])
    else
      if cur = [] then extract_entries_loop rest [] acc
      else extract_entries_loop rest (cur ++ [r]) acc

/-- Function `extract_entries` (app.py lines 35-54): group the cleaned table's rows
into entries, each starting at a date-bearing row. -/
def extract_entries (df : List Row) : List (List Row) :=
  extract_entries_loop df [] []

/-- Function `process_entries` (app.py lines 57-80).  Empty entries are skipped
(`if not entry: continue`).  For a non-empty entry the code reads
`entry[0][0]` (date), `digit_only(entry[2][0])` when the entry has more
than 2 rows, `entry[1][2]` when it has more than 1 row, and joins the
`pd.notna` detail cells with spaces.  `digit_only` applied to an absent
(`NaN`) cell raises an uncaught `TypeError`, modelled as `Except.error`. -/
def process_entries : List (List Row) → Except String (List Record)
  | [] => Except.ok []
  | [] :: rest => process_entries rest
  | (r0 :: rtail) :: rest => do
    let transactionId ← match rtail with
      | _ :: r2 :: _ =>
        match r2.date with
        | some s => Except.ok (some (digit_only s))
        | none => Except.error typeErrorMsg
      | _ => Except.ok (none : Option String)
    let amount : Option String := match rtail with
      | r1 :: _ => r1.credit
      | [] => none
    let content := pyStrip (String.intercalate " "
      ((r0 :: rtail).filterMap (fun r => r.detail)))
    let recs ← process_entries rest
    Except.ok ({ date := r0.date, transactionId := transactionId,
                 amount := amount, content := content } :: recs)

/-- Minimal-quoting CSV field encoding as done by Python's `csv` module:
quote a field containing a delimiter, quote char or line break, doubling
embedded quote chars. -/
def csv_quote (s : String) : String :=
  if s.toList.any (fun c => c = ',' || c = '"' || c = '\n' || c = '\r') then
    "\"" ++ String.join (s.toList.map
      (fun c => if c = '"' then "\"\"" else String.mk [c])) ++ "\""
  else s

/-- A `None` field is written as the empty string by `csv.DictWriter`. -/
def cell_to_field : Option String → String
  | none => ""
  | some s => csv_quote s

/-- One CSV line of a record, fields in `fieldnames` order. -/
def record_to_line (r : Record) : String :=
  String.intercalate ","
    [cell_to_field r.date, cell_to_field r.transactionId,
     cell_to_field r.amount, csv_quote r.content]

/-- The header line written by `writer.writeheader()`. -/
def header_line : String := "Date,TransactionId,Amount,Content"

/-- Function `write_csv` (app.py lines 83-112) against a file modelled as
`Option (List String)` (`none` = missing).  The code opens the file for
reading to set `file_exists` (any existing file, even empty, counts),
then appends: the header only when `file_exists` is false, then one line
per record. -/
def write_csv (data : List Record) (sink : Option (List String)) :
    Option (List String) :=
  let file_exists := sink.isSome
  let lines := sink.getD []
  some (lines ++ (if file_exists then [] else [header_line])
    ++ data.map record_to_line)

/-- The per-page body of `process_pdf_page_range` (app.py lines 134-140):
a `none` extraction result (read_pdf_page caught an ExtractError) skips
the page; otherwise clean, group, normalize and append.  Errors of
`clean_dataframe` and `process_entries` are not caught and propagate. -/
def process_page (extract : Nat → Option (List Row))
    (sink : Option (List String)) (p : Nat) :
    Except String (Option (List String)) :=
  match extract p with
  | none => Except.ok sink
  | some df => do
    let cleaned ← clean_dataframe df
    let entries := extract_entries cleaned
    let final_output ← process_entries entries
    Except.ok (write_csv final_output sink)

/-- Function `process_pdf_page_range` (app.py lines 130-140): process the pages of
one batch in order, threading the sink; an uncaught exception aborts the
remainder of the batch. -/
def process_pdf_page_range (extract : Nat → Option (List Row))
    (pages : List Nat) (sink : Option (List String)) :
    Except String (Option (List String)) :=
  pages.foldlM (process_page extract) sink

/-- Python `range(a, b)`. -/
def pyRange (a b : Nat) : List Nat :=
  (List.range (b - a)).map (a + ·)

/-- Python `range(a, b, s)` for a positive step `s`. -/
def pyRangeStep (a b s : Nat) : List Nat :=
  (List.range ((b - a + s - 1) / s)).map (fun k => a + k * s)

/-- The batch partition of `process_pdf_to_csv` (app.py lines 147-148):
`[range(i, min(i + batch_size, total_number+1))
  for i in range(2, total_number+1, batch_size)]`. -/
def page_ranges (total_number batch_size : Nat) : List (List Nat) :=
  (pyRangeStep 2 (total_number + 1) batch_size).map
    (fun i => pyRange i (min (i + batch_size) (total_number + 1)))

/-! ### Spec-side record definition (for refinement of the normalizer) -/

/-- The record the spec ascribes to one entry: `date` from the first row,
`transactionId` from the digits of the third row's date cell when a third
row exists, `amount` from the second row's credit cell when a second row
exists, `content` from the present detail cells joined by spaces and
trimmed.  Stated from the spec's invariants, to be compared with
`process_entries`. -/
def record_of_entry_spec (e : List Row) : Record where
  date := e.head?.bind (fun r => r.date)
  transactionId := (e[2]?).bind (fun r => r.date.map digit_only)
  amount := (e[1]?).bind (fun r => r.credit)
  content := pyStrip (String.intercalate " " (e.filterMap (fun r => r.detail)))

/-! ### Concurrency model for the shared CSV sink

`write_csv` is not atomic: it first opens the file for reading to decide
`file_exists`, and only later opens it in append mode and writes.  Two
pool workers (separate processes sharing only the file) can interleave
these two phases.  We model one `write_csv` call as two steps: `check`
(read the existence flag) and `append` (write header-if-unseen plus the
record lines). -/

/-- The state of one worker that has one pending `write_csv` call:
its records, the existence flag it saw at its check (if already
performed), and whether it has appended. -/
structure WorkerSt where
  data : List Record
  checked : Option Bool
  appended : Bool
  deriving Repr, DecidableEq

/-- A worker about to call `write_csv data ...`. -/
def WorkerSt.mk0 (data : List Record) : WorkerSt :=
  { data := data, checked := none, appended := false }

/-- Perform the next phase of one worker's `write_csv` call against the
shared file: first the existence check, then the append (header exactly
when the check saw no file). -/
def worker_step (sink : Option (List String)) (w : WorkerSt) :
    Option (List String) × WorkerSt :=
  if w.appended then (sink, w)
  else
    match w.checked with
    | none => (sink, { w with checked := some sink.isSome })
    | some file_exists =>
      (some (sink.getD [] ++ (if file_exists then [] else [header_line])
         ++ w.data.map record_to_line),
       { w with appended := true })

/-- Run a schedule (a list of worker indices, each occurrence performing
that worker's next phase) over the shared file. -/
def run_sched : List Nat → Option (List String) → List WorkerSt →
    Option (List String) × List WorkerSt
  | [], sink, ws => (sink, ws)
  | i :: rest, sink, ws =>
    match ws[i]? with
    | none => run_sched rest sink ws
    | some w =>
      let sw := worker_step sink w
      run_sched rest sw.1 (ws.set i sw.2)

/-! ### Concrete inputs used by the claims -/

/-- A row absent in every cell. -/
def blankRow : Row := ⟨none, none, none, none, none⟩

/-- End-to-end scenario table: `[["09/01/2024",_,_,_,"Donation"],
[_,_,"500000",_,_], ["Ref: AB99Z",_,_,_,_]]`. -/
def tableC8 : List Row :=
  [⟨some "09/01/2024", none, none, none, some "Donation"⟩,
   ⟨none, none, some "500000", none, none⟩,
   ⟨some "Ref: AB99Z", none, none, none, none⟩]

/-- A grouper output whose single entry has three rows and an absent
`date` cell in its third row. -/
def tableBad3 : List Row :=
  [⟨some "10/01/2024", none, none, none, some "Gift"⟩,
   ⟨none, none, some "70000", none, none⟩,
   ⟨none, none, none, none, some "from A"⟩]

/-- A three-row entry whose third row's `date` cell is absent, with the
date boundary row first (any cell contents are allowed by the claim). -/
def entryBad3 : List Row :=
  [⟨some "11/01/2024", none, none, none, some "Support"⟩,
   ⟨none, none, some "120000", none, none⟩,
   ⟨none, some "0", none, none, some "cont."⟩]

/-- A raw page table with only 3 rows: `clean_dataframe` raises on it. -/
def shortRawTable : List Row :=
  [⟨some "SAO KE TAI KHOAN", none, none, none, none⟩,
   ⟨some "Ngay", some "Ghi no", some "Ghi co", some "So du", some "Noi dung"⟩,
   blankRow]

/-- A raw page table long enough to clean: 4 banner rows then one
data row. -/
def goodRawTable : List Row :=
  [blankRow, blankRow, blankRow, blankRow,
   ⟨some "12/01/2024", none, some "50000", none, some "Ung ho"⟩]

/-- An extractor for which page 1 yields a too-short raw table and page 2
a good one; used against the claim that a cleaning failure is page-local. -/
def extractC5 : Nat → Option (List Row) :=
  fun p => if p = 1 then some shortRawTable
    else if p = 2 then some goodRawTable else none

/-- A second raw table long enough to clean, with a distinct data row. -/
def goodRawTable2 : List Row :=
  [blankRow, blankRow, blankRow, blankRow,
   ⟨some "13/01/2024", none, some "80000", none, some "Ung ho 2"⟩]

/-- An extractor for which page 1 yields a 2-row raw table and page 2 a
good one; used against the claim that `clean_dataframe` failures make
the caller skip the page. -/
def extractC7 : Nat → Option (List Row) :=
  fun p => if p = 1 then some (shortRawTable.take 2)
    else if p = 2 then some goodRawTable2 else none

/-- Two one-record batches written by two racing workers. -/
def recA : Record :=
  { date := some "09/01/2024", transactionId := some "5090",
    amount := some "10000", content := "ung ho" }

def recB : Record :=
  { date := some "09/02/2024", transactionId := some "5091",
    amount := some "20000", content := "tu thien" }

/-- Eight workers, each with one `write_csv` call; the first two race. -/
def workersC9 : List WorkerSt :=
  [WorkerSt.mk0 [recA], WorkerSt.mk0 [recB], WorkerSt.mk0 [], WorkerSt.mk0 [],
   WorkerSt.mk0 [], WorkerSt.mk0 [], WorkerSt.mk0 [], WorkerSt.mk0 []]

/-- A schedule in which workers 0 and 1 both perform their existence
check before either appends; the remaining workers run serialized. -/
def racySched : List Nat :=
  [0, 1, 0, 1, 2, 2, 3, 3, 4, 4, 5, 5, 6, 6, 7, 7]

/-! ### Helper lemmas about the entry grouper -/

lemma extract_entries_loop_length (rows : List Row) :
    ∀ (cur : List Row) (acc : List (List Row)),
      (extract_entries_loop rows cur acc).length =
        acc.length + (if cur = [] then 0 else 1) + rows.countP isDateRow := by
  induction rows with
  | nil =>
    intro cur acc
    by_cases h : cur = [] <;> simp [extract_entries_loop, h]
  | cons r rest ih =>
    intro cur acc
    by_cases hd : isDateRow r
    · by_cases h : cur = [] <;>
        simp [extract_entries_loop, hd, h, ih, List.countP_cons] <;> omega
    · by_cases h : cur = []
      · simp [extract_entries_loop, hd, h, ih, List.countP_cons]
      · have hne : cur ++ [r] ≠ [] := by simp
        simp [extract_entries_loop, hd, h, ih, hne, List.countP_cons]

lemma extract_entries_length (df : List Row) :
    (extract_entries df).length = df.countP isDateRow := by
  simpa using extract_entries_loop_length df [] []

lemma extract_entries_loop_flatten_acc (rows : List Row) :
    ∀ (cur : List Row) (acc : List (List Row)), cur ≠ [] →
      (extract_entries_loop rows cur acc).flatten =
        acc.flatten ++ cur ++ rows := by
  induction rows with
  | nil =>
    intro cur acc h
    simp [extract_entries_loop, h]
  | cons r rest ih =>
    intro cur acc h
    by_cases hd : isDateRow r
    · have : ([r] : List Row) ≠ [] := by simp
      simp [extract_entries_loop, hd, h, ih _ _ this]
    · have hne : cur ++ [r] ≠ [] := by simp
      simp [extract_entries_loop, hd, h, ih _ _ hne]

lemma extract_entries_loop_flatten_nil (rows : List Row) :
    ∀ (acc : List (List Row)),
      (extract_entries_loop rows [] acc).flatten =
        acc.flatten ++ rows.dropWhile (fun r => !isDateRow r) := by
  induction rows with
  | nil => intro acc; simp [extract_entries_loop]
  | cons r rest ih =>
    intro acc
    by_cases hd : isDateRow r
    · have : ([r] : List Row) ≠ [] := by simp
      simp [extract_entries_loop, hd, extract_entries_loop_flatten_acc _ _ _ this,
        List.dropWhile]
    · simp [extract_entries_loop, hd, ih, List.dropWhile]

lemma extract_entries_flatten (df : List Row) :
    (extract_entries df).flatten = df.dropWhile (fun r => !isDateRow r) := by
  simpa using extract_entries_loop_flatten_nil df []

lemma extract_entries_loop_heads (rows : List Row) :
    ∀ (cur : List Row) (acc : List (List Row)),
      (extract_entries_loop rows cur acc).map List.head? =
        acc.map List.head? ++ (if cur = [] then [] else [cur.head?])
          ++ (rows.filter isDateRow).map some := by
  induction rows with
  | nil =>
    intro cur acc
    by_cases h : cur = [] <;> simp [extract_entries_loop, h]
  | cons r rest ih =>
    intro cur acc
    by_cases hd : isDateRow r
    · by_cases h : cur = [] <;>
        simp [extract_entries_loop, hd, h, ih, List.filter_cons]
    · by_cases h : cur = []
      · simp [extract_entries_loop, hd, h, ih, List.filter_cons]
      · have hne : cur ++ [r] ≠ [] := by simp
        obtain ⟨c, cs, rfl⟩ := List.exists_cons_of_ne_nil h
        simp [extract_entries_loop, hd, hne, ih, List.filter_cons]

lemma extract_entries_heads (df : List Row) :
    (extract_entries df).map List.head? = (df.filter isDateRow).map some := by
  simpa using extract_entries_loop_heads df [] []

lemma extract_entries_loop_ne_nil (rows : List Row) :
    ∀ (cur : List Row) (acc : List (List Row)),
      (∀ e ∈ acc, e ≠ []) →
      ∀ e ∈ extract_entries_loop rows cur acc, e ≠ [] := by
  induction rows with
  | nil =>
    intro cur acc hacc e he
    by_cases h : cur = []
    · simp [extract_entries_loop, h] at he; exact hacc e he
    · simp [extract_entries_loop, h] at he
      rcases he with he | he
      · exact hacc e he
      · simpa [he] using h
  | cons r rest ih =>
    intro cur acc hacc e he
    by_cases hd : isDateRow r
    · by_cases h : cur = []
      · simp [extract_entries_loop, hd, h] at he
        exact ih _ _ hacc e he
      · simp [extract_entries_loop, hd, h] at he
        refine ih _ _ ?_ e he
        intro x hx
        simp at hx
        rcases hx with hx | hx
        · exact hacc x hx
        · simpa [hx] using h
    · by_cases h : cur = []
      · simp [extract_entries_loop, hd, h] at he
        exact ih _ _ hacc e he
      · simp [extract_entries_loop, hd, h] at he
        exact ih _ _ hacc e he

lemma extract_entries_ne_nil (df : List Row) :
    ∀ e ∈ extract_entries df, e ≠ [] :=
  extract_entries_loop_ne_nil df [] [] (by simp)

lemma process_entries_ok (es : List (List Row))
    (hne : ∀ e ∈ es, e ≠ [])
    (h3 : ∀ e ∈ es, 3 ≤ e.length → ((e[2]?).bind (fun r => r.date)).isSome) :
    process_entries es = Except.ok (es.map record_of_entry_spec) := by
  induction es with
  | nil => simp [process_entries]
  | cons e rest ih =>
    have hrest : process_entries rest = Except.ok (rest.map record_of_entry_spec) :=
      ih (fun x hx => hne x (by simp [hx])) (fun x hx => h3 x (by simp [hx]))
    obtain ⟨r0, rtail, rfl⟩ := List.exists_cons_of_ne_nil (hne e (List.mem_cons_self e rest))
    match rtail with
    | [] =>
      simp [process_entries, hrest, record_of_entry_spec, Bind.bind, Except.bind]
    | [r1] =>
      simp [process_entries, hrest, record_of_entry_spec, Bind.bind, Except.bind]
    | r1 :: r2 :: t =>
      have hlen : 3 ≤ (r0 :: r1 :: r2 :: t).length := by simp
      have := h3 (r0 :: r1 :: r2 :: t) (List.mem_cons_self _ _) hlen
      simp at this
      obtain ⟨s, hs⟩ := Option.isSome_iff_exists.mp this
      simp [process_entries, hrest, record_of_entry_spec, Bind.bind, Except.bind, hs]

lemma pyRange_eq_nil {a b : Nat} (h : b ≤ a) : pyRange a b = [] := by
  simp [pyRange, Nat.sub_eq_zero_of_le h]

lemma pyRangeStep_eq_nil {a b s : Nat} (h : b ≤ a) : pyRangeStep a b s = [] := by
  have h0 : b - a = 0 := Nat.sub_eq_zero_of_le h
  have h1 : (s - 1) / s = 0 := by
    cases s with
    | zero => simp
    | succ n => exact Nat.div_eq_of_lt (by omega)
  have h2 : (0 + s - 1) / s = 0 := by simpa using h1
  simp [pyRangeStep, h0, h1, h2]

lemma pyRangeStep_cons {a b s : Nat} (hab : a < b) (hs : 0 < s) :
    pyRangeStep a b s = a :: pyRangeStep (a + s) b s := by
  have hn : (b - a + s - 1) / s = (b - (a + s) + s - 1) / s + 1 := by
    rcases le_or_lt b (a + s) with h | h
    · have h1 : b - (a + s) = 0 := Nat.sub_eq_zero_of_le h
      have h2 : (b - a + s - 1) / s = 1 := by
        apply Nat.div_eq_of_lt_le <;> omega
      have h3 : (0 + s - 1) / s = 0 := Nat.div_eq_of_lt (by omega)
      have h4 : (s - 1) / s = 0 := Nat.div_eq_of_lt (by omega)
      rw [h1]; omega
    · have h1 : b - (a + s) + s - 1 = (b - a - 1 - s) + s := by omega
      have h2 : b - a + s - 1 = (b - a - 1) + s := by omega
      rw [h1, h2, Nat.add_div_right _ hs, Nat.add_div_right _ hs]
      have h3 : b - a - 1 = (b - a - 1 - s) + s := by omega
      conv_lhs => rw [h3, Nat.add_div_right _ hs]
  simp only [pyRangeStep, hn, List.range_succ_eq_map, List.map_cons, List.map_map]
  congr 1
  · simp
  · apply List.map_congr_left
    intro k _
    simp [Function.comp]
    ring

lemma pyRange_append {a m b : Nat} (h1 : a ≤ m) (h2 : m ≤ b) :
    pyRange a m ++ pyRange m b = pyRange a b := by
  have hba : b - a = (m - a) + (b - m) := by omega
  simp only [pyRange, hba, List.range_add, List.map_append, List.map_map]
  congr 1
  apply List.map_congr_left
  intro k _
  simp [Function.comp]
  omega

lemma pyRangeStep_flatten_ranges (s : Nat) (hs : 0 < s) (b : Nat) :
    ∀ d a, b - a ≤ d →
      ((pyRangeStep a b s).map (fun i => pyRange i (min (i + s) b))).flatten
        = pyRange a b := by
  intro d
  induction d with
  | zero =>
    intro a ha
    have h : b ≤ a := by omega
    simp [pyRangeStep_eq_nil h, pyRange_eq_nil h]
  | succ d ih =>
    intro a ha
    rcases le_or_lt b a with h | h
    · simp [pyRangeStep_eq_nil h, pyRange_eq_nil h]
    · rw [pyRangeStep_cons h hs]
      simp only [List.map_cons, List.flatten_cons]
      rw [ih (a + s) (by omega)]
      rcases le_or_lt (a + s) b with h2 | h2
      · rw [min_eq_left h2]
        exact pyRange_append (by omega) h2
      · rw [min_eq_right (by omega)]
        simp [pyRange_eq_nil (by omega : b ≤ a + s)]

lemma page_ranges_flatten (total_number batch_size : Nat) (hs : 0 < batch_size) :
    (page_ranges total_number batch_size).flatten = pyRange 2 (total_number + 1) :=
  pyRangeStep_flatten_ranges batch_size hs (total_number + 1) (total_number + 1) 2
    (by omega)

lemma pyRange_nodup (a b : Nat) : (pyRange a b).Nodup := by
  apply List.Nodup.map
  · intro x y h
    simp only [] at h
    omega
  · exact List.nodup_range _

lemma write_csv_foldl_some (ds : List (List Record)) :
    ∀ ls, ds.foldl (fun s d => write_csv d s) (some ls)
      = some (ls ++ (ds.flatten).map record_to_line) := by
  induction ds with
  | nil => intro ls; simp
  | cons d rest ih =>
    intro ls
    have h1 : write_csv d (some ls) = some (ls ++ d.map record_to_line) := by
      simp [write_csv]
    rw [List.foldl_cons, h1, ih]
    simp

lemma write_csv_foldl_none (ds : List (List Record)) (h : ds ≠ []) :
    ds.foldl (fun s d => write_csv d s) none
      = some (header_line :: (ds.flatten).map record_to_line) := by
  obtain ⟨d, rest, rfl⟩ := List.exists_cons_of_ne_nil h
  simp only [List.foldl_cons]
  have h1 : write_csv d none = some (header_line :: d.map record_to_line) := by
    simp [write_csv]
  rw [h1, write_csv_foldl_some]
  simp

/-! ### Claim theorems -/

/-- C2: for every cleaned table, `extract_entries` produces exactly as
many entries as there are rows whose date cell is present and contains
the separator character; the rows preceding the first date-bearing row
are silently discarded (the entries flatten back to the table's suffix
starting at the first date-bearing row, preserving row order); and the
entries start, in table order, exactly at the date-bearing rows. -/
theorem C2_grouper_boundary_count (df : List Row) :
    (extract_entries df).length = df.countP isDateRow ∧
    (extract_entries df).flatten = df.dropWhile (fun r => !isDateRow r) ∧
    (extract_entries df).map List.head? = (df.filter isDateRow).map some :=
  ⟨extract_entries_length df, extract_entries_flatten df, extract_entries_heads df⟩

/-- C1 (amended): for every entry produced by the grouper, provided that
whenever the entry has at least 3 rows its third row's date cell is
present, normalization yields a record whose amount is the second row's
credit cell when a second row exists (null otherwise), whose
transactionId is the digits-only filtering of the third row's date cell
when a third row exists (null otherwise), and whose content is the
space-joined, trimmed concatenation of the present detail cells in row
order (`record_of_entry_spec` states these invariants from the spec). -/
theorem C1_normalizer_spec (df : List Row)
    (h : ∀ e ∈ extract_entries df, 3 ≤ e.length →
      ((e[2]?).bind (fun r => r.date)).isSome) :
    process_entries (extract_entries df)
      = Except.ok ((extract_entries df).map record_of_entry_spec) :=
  process_entries_ok (extract_entries df) (extract_entries_ne_nil df) h

/-- Witness for C1 at the concrete end-to-end table. -/
theorem C1_normalizer_spec_witness :
    process_entries (extract_entries tableC8)
      = Except.ok ((extract_entries tableC8).map record_of_entry_spec) :=
  C1_normalizer_spec tableC8 (by decide)

/-- C1 counterexample: on the grouper output of `tableBad3` — a single
3-row entry whose third row's date cell is absent — normalization does
not yield a record at all: `process_entries` raises (a `TypeError` from
`digit_only(nan)`), so the claim as stated fails for this entry. -/
theorem C1_grouper_entry_raises :
    process_entries (extract_entries tableBad3) = Except.error typeErrorMsg := rfl

/-- C3 (code bug): the normalizer is claimed never to fail on any entry
of length at least 1, whatever the cell contents; but on `entryBad3`, a
3-row entry whose third row's date cell is absent, the code evaluates
`digit_only(entry[2][0])` on a `NaN` float and raises a `TypeError`.
The spec's graceful-degradation contract is the evident intent: the code
guards `row[4]` with `pd.notna` when building the content but omits the
same guard on `entry[2][0]`. -/
theorem C3_normalizer_raises_on_absent_cell :
    process_entries [entryBad3] = Except.error typeErrorMsg := rfl

set_option maxRecDepth 4000 in
/-- C4 counterexample: with firstPage=2, lastPageInclusive=2029 and
batchSize=100 the claim's batch sizes are wrong: the range [2, 2029] has
2028 pages, so the last of the 21 batches has 28 pages, not 29. -/
theorem C4_last_batch_not_29 :
    ¬ ((page_ranges 2029 100).length = 21 ∧
       (page_ranges 2029 100).map List.length = List.replicate 20 100 ++ [29] ∧
       (page_ranges 2029 100).flatten = pyRange 2 2030) := by
  intro h
  have h28 : (page_ranges 2029 100).map List.length
      = List.replicate 20 100 ++ [28] := by decide
  have hx := h28.symm.trans h.2.1
  exact absurd hx (by decide)

set_option maxRecDepth 4000 in
/-- C4 (amended): with firstPage=2, lastPageInclusive=2029 and
batchSize=100 the scheduler partitions the page range into exactly 21
contiguous batches, the first 20 of size 100 and the last of size 28;
their concatenation is exactly the duplicate-free page list [2..2029],
so every page belongs to exactly one batch, with no overlap and no
gap. -/
theorem C4_batch_partition :
    (page_ranges 2029 100).length = 21 ∧
    (page_ranges 2029 100).map List.length = List.replicate 20 100 ++ [28] ∧
    (page_ranges 2029 100).flatten = pyRange 2 2030 ∧
    (pyRange 2 2030).Nodup := by
  refine ⟨by decide, by decide, ?_, pyRange_nodup 2 2030⟩
  exact page_ranges_flatten 2029 100 (by omega)

/-- C5 counterexample: page 1 of `extractC5` yields a 3-row raw table, so
`clean_dataframe` raises; the claim says the page is skipped and the
worker continues with page 2, but the whole batch run [1, 2] aborts with
the uncaught error — while page 2 alone would have produced a record. -/
theorem C5_clean_failure_aborts_batch :
    process_pdf_page_range extractC5 [1, 2] none = Except.error keyErrorMsg ∧
    process_pdf_page_range extractC5 [2] none
      = Except.ok (some [header_line, "12/01/2024,,,Ung ho"]) := ⟨rfl, rfl⟩

/-- C5 (amended): a page whose extraction fails (TableExtractor returns
nothing) contributes no records and the worker continues with the rest
of the batch; but a page whose cleaning fails (raw table with fewer than
4 rows) raises an error that the per-page loop does not catch, aborting
the remainder of the batch. -/
theorem C5_page_failure_policy (extract : Nat → Option (List Row)) (p q : Nat)
    (rest : List Nat) (sink : Option (List String)) (df : List Row) :
    (extract p = none →
      process_pdf_page_range extract (p :: rest) sink
        = process_pdf_page_range extract rest sink) ∧
    (extract q = some df → df.length < 4 →
      process_pdf_page_range extract (q :: rest) sink
        = Except.error keyErrorMsg) := by
  constructor
  · intro h
    simp [process_pdf_page_range, process_page, h, Bind.bind, Except.bind]
  · intro h hlen
    have hdrop : df.drop 3 = [] := List.drop_eq_nil_of_le (by omega)
    simp [process_pdf_page_range, process_page, h, clean_dataframe, hdrop,
      Bind.bind, Except.bind]

/-- Witness for C5: `extractC5` fails extraction on page 3 (skip and
continue) and yields a too-short table on page 1 (batch aborts). -/
theorem C5_page_failure_policy_witness :
    process_pdf_page_range extractC5 (3 :: [2]) none
      = process_pdf_page_range extractC5 [2] none ∧
    process_pdf_page_range extractC5 (1 :: [2]) none
      = Except.error keyErrorMsg :=
  ⟨(C5_page_failure_policy extractC5 3 1 [2] none shortRawTable).1 rfl,
   (C5_page_failure_policy extractC5 3 1 [2] none shortRawTable).2 rfl (by decide)⟩

/-- C7 counterexample: page 1 of `extractC7` yields a 2-row raw table, so
`clean_dataframe` fails; the claim says the caller then skips the page,
but the caller catches nothing: the batch [1, 2] aborts with the error
and page 2 — which alone produces a record — is never processed. -/
theorem C7_clean_failure_not_skipped :
    process_pdf_page_range extractC7 [1, 2] none = Except.error keyErrorMsg ∧
    process_pdf_page_range extractC7 [2] none
      = Except.ok (some [header_line, "13/01/2024,,,Ung ho 2"]) := ⟨rfl, rfl⟩

/-- C7 (amended): on a raw 5-column table of n rows, `clean_dataframe`
drops the first 3 rows, assigns the fixed column names, drops one more
leading row, and returns the remaining n - 4 rows; it fails if and only
if the raw table has fewer than 4 rows, and the failure is an error
(pandas `KeyError`) that the caller does not catch — the batch aborts
instead of skipping the page. -/
theorem C7_cleaner_contract (df dfs : List Row)
    (extract : Nat → Option (List Row)) (p : Nat) (rest : List Nat)
    (sink : Option (List String)) :
    (4 ≤ df.length →
      clean_dataframe df = Except.ok (df.drop 4) ∧
      (df.drop 4).length = df.length - 4) ∧
    (dfs.length < 4 → clean_dataframe dfs = Except.error keyErrorMsg) ∧
    (extract p = some dfs → dfs.length < 4 →
      process_pdf_page_range extract (p :: rest) sink
        = Except.error keyErrorMsg) := by
  refine ⟨?_, ?_, ?_⟩
  · intro h4
    have hne : df.drop 3 ≠ [] := by
      intro hnil
      have := List.drop_eq_nil_iff.mp hnil
      omega
    obtain ⟨x, xs, hx⟩ := List.exists_cons_of_ne_nil hne
    have hxs : xs = df.drop 4 := by
      have h1 : (df.drop 3).tail = df.drop 4 := by
        rw [List.tail_drop]
      rw [← h1, hx]
      rfl
    constructor
    · simp [clean_dataframe, hx, hxs]
    · simp [List.length_drop]
  · intro hlen
    have hdrop : dfs.drop 3 = [] := List.drop_eq_nil_of_le (by omega)
    simp [clean_dataframe, hdrop]
  · intro h hlen
    have hdrop : dfs.drop 3 = [] := List.drop_eq_nil_of_le (by omega)
    simp [process_pdf_page_range, process_page, h, clean_dataframe, hdrop,
      Bind.bind, Except.bind]

/-- Witness for C7 at a 5-row good table and the 2-row short table. -/
theorem C7_cleaner_contract_witness :
    (clean_dataframe goodRawTable = Except.ok (goodRawTable.drop 4) ∧
      (goodRawTable.drop 4).length = goodRawTable.length - 4) ∧
    clean_dataframe (shortRawTable.take 2) = Except.error keyErrorMsg ∧
    process_pdf_page_range extractC7 (1 :: [2]) none
      = Except.error keyErrorMsg :=
  ⟨(C7_cleaner_contract goodRawTable (shortRawTable.take 2) extractC7 1 [2]
      none).1 (by decide),
   (C7_cleaner_contract goodRawTable (shortRawTable.take 2) extractC7 1 [2]
      none).2.1 (by decide),
   (C7_cleaner_contract goodRawTable (shortRawTable.take 2) extractC7 1 [2]
      none).2.2 rfl (by decide)⟩

/-- C6: calling `write_csv` twice in sequence against a missing sink
produces exactly one header line followed by the first call's record
lines then the second call's, in order; against a pre-existing non-empty
sink it appends the record lines without ever writing the header again;
and any non-empty sequence of sequential calls against a fresh sink
yields the header exactly once, before the first record ever written. -/
theorem C6_header_once (d1 d2 : List Record) (ds : List (List Record))
    (l : String) (ls : List String) (h : ds ≠ []) :
    write_csv d2 (write_csv d1 none)
      = some (header_line :: (d1.map record_to_line ++ d2.map record_to_line)) ∧
    write_csv d1 (some (l :: ls)) = some ((l :: ls) ++ d1.map record_to_line) ∧
    ds.foldl (fun s d => write_csv d s) none
      = some (header_line :: (ds.flatten).map record_to_line) := by
  refine ⟨?_, ?_, write_csv_foldl_none ds h⟩
  · simp [write_csv]
  · simp [write_csv]

/-- Witness for C6 at concrete one-record calls. -/
theorem C6_header_once_witness :
    write_csv [recB] (write_csv [recA] none)
      = some (header_line ::
          ([recA].map record_to_line ++ [recB].map record_to_line)) ∧
    write_csv [recA] (some (header_line :: []))
      = some ((header_line :: []) ++ [recA].map record_to_line) ∧
    ([[recA]] : List (List Record)).foldl (fun s d => write_csv d s) none
      = some (header_line ::
          ([[recA]] : List (List Record)).flatten.map record_to_line) :=
  C6_header_once [recA] [recB] [[recA]] header_line [] (by decide)

/-- C10: when the sink file already exists — even empty, with no header
and no record ever written — `write_csv` appends the given records
without writing any header: the existence check only tests whether the
file can be opened, not whether it contains data. -/
theorem C10_empty_existing_file_no_header (data : List Record) :
    write_csv data (some []) = some (data.map record_to_line) := by
  simp [write_csv]

/-- C9 counterexample: an interleaving of two of the eight workers in
which both perform `write_csv`'s existence check before either appends
(schedule `racySched`) leaves the sink with a duplicated header line —
the check-then-append of `write_csv` is not atomic, so the claimed
property does not hold for every interleaving. -/
theorem C9_racy_duplicate_header :
    (run_sched racySched none workersC9).1
      = some [header_line, "09/01/2024,5090,10000,ung ho",
              header_line, "09/02/2024,5091,20000,tu thien"] := rfl

/-- C9 (amended): when each of the 8 workers' `write_csv` calls executes
atomically (its existence check immediately followed by its append, with
no interleaving inside the call), the sink holds exactly one header line
followed by every worker's records — none lost, none duplicated.  The
claim as stated, over every interleaving of the non-atomic calls, is
refuted by the duplicated header of `C9_racy_duplicate_header`. -/
theorem C9_serialized_appends_exact (d0 d1 d2 d3 d4 d5 d6 d7 : List Record) :
    (run_sched [0, 0, 1, 1, 2, 2, 3, 3, 4, 4, 5, 5, 6, 6, 7, 7] none
      [WorkerSt.mk0 d0, WorkerSt.mk0 d1, WorkerSt.mk0 d2, WorkerSt.mk0 d3,
       WorkerSt.mk0 d4, WorkerSt.mk0 d5, WorkerSt.mk0 d6, WorkerSt.mk0 d7]).1
    = some (header_line ::
        (d0 ++ d1 ++ d2 ++ d3 ++ d4 ++ d5 ++ d6 ++ d7).map record_to_line) := by
  simp [run_sched, worker_step, WorkerSt.mk0]

/-- C8: the cleaned table `[["09/01/2024",_,_,_,"Donation"],
[_,_,"500000",_,_], ["Ref: AB99Z",_,_,_,_]]` groups into one entry and
normalizes to exactly the record `{date: "09/01/2024",
transactionId: "99", amount: "500000", content: "Donation"}`. -/
theorem C8_end_to_end_scenario :
    process_entries (extract_entries tableC8)
      = Except.ok [{ date := some "09/01/2024", transactionId := some "99",
                     amount := some "500000", content := "Donation" }] := rfl
